import Mathlib

/-!
Shallow embedding of the Shield-X detection code
(`src/ShieldX/src/models/harassment.py`, `src/ShieldX/src/models/deepfake.py`,
`src/src/models/deepfake.py`) and proofs about it.

Texts are modelled as `List Char` (Python `str`), lowercasing as ASCII
`Char.toLower` (all keywords in the source are ASCII), the Python substring
test `kw in text` as the structural `hasSub` below, and Python floats as `ℚ`
(the code only adds, multiplies, divides, compares and takes `min` of decimal
constants, so exact rational arithmetic reflects the intended real-number
semantics). `round(x, 4)` is modelled by `round4` below.
-/

/-- ASCII lowercasing of a text, modelling Python `str.lower()` on the ASCII
keywords that appear in the source. -/
def lower (t : List Char) : List Char := t.map Char.toLower

/-- Boolean structural test that `kw` is a leading segment of `t`. -/
def beginsWith : List Char → List Char → Bool
  | [], _ => true
  | _ :: _, [] => false
  | a :: as, b :: bs => a == b && beginsWith as bs

theorem beginsWith_iff (kw t : List Char) : beginsWith kw t = true ↔ kw <+: t := by
  induction kw generalizing t with
  | nil => simp [beginsWith]
  | cons a as ih =>
    cases t with
    | nil => simp [beginsWith]
    | cons b bs => simp [beginsWith, List.cons_prefix_cons, ih, And.comm]

/-- Python substring containment `kw in t` for strings: `kw` occurs
contiguously in `t`. -/
def hasSub (kw : List Char) : List Char → Bool
  | [] => kw.isEmpty
  | c :: rest => beginsWith kw (c :: rest) || hasSub kw rest

theorem hasSub_eq_true_iff (kw t : List Char) : hasSub kw t = true ↔ kw <:+: t := by
  induction t with
  | nil =>
    simp [hasSub, List.isEmpty_iff, List.infix_nil]
  | cons c rest ih =>
    simp only [hasSub, Bool.or_eq_true, beginsWith_iff, ih, List.infix_cons_iff]

/-- Python whitespace characters relevant to `str.strip()` (ASCII). -/
def isPySpace (c : Char) : Bool :=
  c == ' ' || c == '\t' || c == '\n' || c == '\r' || c == Char.ofNat 11 || c == Char.ofNat 12

/-- Test `not text or not text.strip()`: the text is empty or whitespace-only. -/
def isBlank (t : List Char) : Bool := t.all isPySpace

/-- Arithmetic mean of a list of scores, `sum(xs) / len(xs)` (used only on
non-empty lists, as in the source). -/
def mean (l : List ℚ) : ℚ := l.sum / l.length

/-- Python `max` over a non-empty list (head-seeded fold). -/
def listMax : List ℚ → ℚ
  | [] => 0
  | x :: xs => xs.foldl max x

/-- Python `min` over a non-empty list (head-seeded fold). -/
def listMin : List ℚ → ℚ
  | [] => 0
  | x :: xs => xs.foldl min x

/-- Python `round(x, 4)`: round to 4 decimal places. (Python rounds ties to
even; `round` here rounds ties up. The values arising in the development are
never ties, so the two agree on everything proved below.) -/
def round4 (q : ℚ) : ℚ := (round (q * 10000) : ℚ) / 10000

/-- A rational lies on the 4-decimal grid: `q * 10000` is an integer. -/
def OnGrid4 (q : ℚ) : Prop := ∃ k : ℤ, q * 10000 = (k : ℚ)

theorem round4_eq_self {q : ℚ} (h : OnGrid4 q) : round4 q = q := by
  obtain ⟨k, hk⟩ := h
  unfold round4
  rw [hk, round_intCast, div_eq_iff (by norm_num : (10000 : ℚ) ≠ 0)]
  exact hk.symm

theorem onGrid4_add {a b : ℚ} (ha : OnGrid4 a) (hb : OnGrid4 b) : OnGrid4 (a + b) := by
  obtain ⟨i, hi⟩ := ha
  obtain ⟨j, hj⟩ := hb
  exact ⟨i + j, by push_cast; rw [add_mul, hi, hj]⟩

theorem onGrid4_min {a b : ℚ} (ha : OnGrid4 a) (hb : OnGrid4 b) : OnGrid4 (min a b) := by
  rcases le_total a b with h | h
  · rw [min_eq_left h]; exact ha
  · rw [min_eq_right h]; exact hb

theorem onGrid4_tenth_mul (n : ℕ) : OnGrid4 ((1/10 : ℚ) * n) :=
  ⟨1000 * n, by push_cast; ring⟩

theorem onGrid4_three_twentieth_mul (n : ℕ) : OnGrid4 ((3/20 : ℚ) * n) :=
  ⟨1500 * n, by push_cast; ring⟩

/-! ## Harassment detector (`src/ShieldX/src/models/harassment.py`) -/

/-- Apostrophe character, used inside a few intent-trigger phrases. -/
def apos : Char := Char.ofNat 39

/-- Keyword list `self.fallback_words` (harassment.py lines 58-63). -/
def fallback_words : List (List Char) :=
  ["kill", "hate", "follow", "watch", "control", "obey", "attack",
   "destroy", "bitch", "threat", "blackmail", "force", "hurt",
   "find you", "track you", "waiting outside", "ruin", "break you",
   "die", "death", "murder", "stalk", "creep", "loser", "worthless"].map String.data

/-- Phrase list `self.intent_triggers` (harassment.py lines 65-72). -/
def intent_triggers : List (List Char) :=
  ["follow you".data, "find you".data, "track you".data, "watch you".data,
   "hurt you".data, "kill you".data, "destroy you".data, "make you pay".data,
   "no one will believe you".data, "i".data ++ [apos] ++ "m outside".data,
   "waiting for you".data,
   "you can".data ++ [apos] ++ "t escape".data, "i know where you live".data,
   "i".data ++ [apos] ++ "ll get you".data,
   "you will regret".data, "you deserve this".data, "you will die".data,
   "i".data ++ [apos] ++ "m watching".data, "i see you".data, "found you".data]

/-- Table `self.category_map` (harassment.py lines 74-85), in insertion order. -/
def category_map : List (String × List (List Char)) :=
  [("threat", ["kill", "hurt", "destroy", "attack", "revenge", "make you pay",
               "you will regret", "die", "death", "murder", "harm"].map String.data),
   ("stalking", ["follow".data, "find you".data, "track".data, "watch".data,
                 "waiting outside".data, "outside your house".data, "i see you".data,
                 "i".data ++ [apos] ++ "m watching".data, "found you".data]),
   ("manipulation", ["control".data, "obey".data, "no one will believe you".data,
                     "you owe me".data, "you can".data ++ [apos] ++ "t escape".data,
                     "you".data ++ [apos] ++ "re mine".data, "you belong to me".data]),
   ("harassment", ["bitch", "hate", "worthless", "idiot", "stupid", "pathetic",
                   "trash", "loser", "ugly", "disgusting"].map String.data),
   ("coercion", ["blackmail", "force", "you must", "you have to", "submit",
                 "do what i say", "or else"].map String.data)]

/-- Critical word list of `_has_critical_keywords` (harassment.py line 175). -/
def critical_words : List (List Char) :=
  ["kill", "die", "death", "murder", "hurt", "destroy", "attack"].map String.data

/-- Predicate `_has_critical_keywords(text_lower)` (harassment.py lines 173-176). -/
def has_critical_keywords (tl : List Char) : Bool :=
  critical_words.any (fun w => hasSub w tl)

/-- Bucketing `_classify_severity(score)` (harassment.py lines 217-227). -/
def classify_severity (score : ℚ) : String :=
  if 17/20 ≤ score then "critical"
  else if 13/20 ≤ score then "high"
  else if 9/20 ≤ score then "medium"
  else if 1/4 ≤ score then "low"
  else "safe"

/-- Function `_detect_category(text_lower)` (harassment.py lines 229-238): count keyword
matches per category, return the first category attaining the maximal positive
count (Python `max` over an insertion-ordered dict returns the first maximal
key), else "general". -/
def detect_category (tl : List Char) : String :=
  let scored := category_map.map (fun p => (p.1, p.2.countP (fun k => hasSub k tl)))
  let pos := scored.filter (fun p => 0 < p.2)
  match pos with
  | [] => "general"
  | _ =>
    let m := (pos.map Prod.snd).foldl max 0
    ((pos.find? (fun p => p.2 == m)).map Prod.fst).getD "general"

/-- List `matched_intents = [t for t in self.intent_triggers if t in text_lower]`
(harassment.py line 122). -/
def matched_intents (tl : List Char) : List (List Char) :=
  intent_triggers.filter (fun t => hasSub t tl)

/-- The intent-amplification boost for `k` matched triggers:
`min(0.35, 0.15 * k)` (harassment.py line 124). -/
def intent_boost_of (k : ℕ) : ℚ := min (7/20) ((3/20) * k)

/-- Value of `avg_toxic` after intent amplification (harassment.py lines 118-126). -/
def boosted_toxic (scores : List ℚ) (tl : List Char) : ℚ :=
  let avg := mean scores
  if matched_intents tl ≠ [] then
    min 1 (avg + intent_boost_of (matched_intents tl).length)
  else avg

/-- Value of `avg_toxic` after intent amplification and variance smoothing
(harassment.py lines 118-133). -/
def final_toxic (scores : List ℚ) (tl : List Char) : ℚ :=
  let a := boosted_toxic scores tl
  if 1 < scores.length ∧ 2/5 < listMax scores - listMin scores then a * (9/10) else a

/-- Result record of `analyze_text` / `_keyword_fallback_analysis`, restricted
to the fields the specification speaks about. -/
structure TextResult where
  is_harassment : Bool
  confidence : ℚ
  severity : String
  category : String
  method : String
deriving DecidableEq, Repr

/-- The contextual-AI branch of `analyze_text` once `ai_scores` is non-empty
(harassment.py lines 117-154). -/
def ai_analysis (scores : List ℚ) (text : List Char) : TextResult :=
  let tl := lower text
  let a := final_toxic scores tl
  { is_harassment := decide ((7/20 : ℚ) ≤ a) || !(matched_intents tl).isEmpty
                       || has_critical_keywords tl,
    confidence := round4 a,
    severity := classify_severity a,
    category := detect_category tl,
    method := "contextual_ai" }

/-- Fallback `_keyword_fallback_analysis(text)` (harassment.py lines 178-199). -/
def keyword_fallback_analysis (text : List Char) : TextResult :=
  let tl := lower text
  let found := fallback_words.filter (fun w => hasSub w tl)
  let intent_found := intent_triggers.filter (fun t => hasSub t tl)
  let base_score : ℚ := if found ≠ [] then 3/10 else 0
  let keyword_boost : ℚ := min (2/5) ((1/10) * found.length)
  let intent_boost : ℚ := min (3/10) ((3/20) * intent_found.length)
  let score := min (19/20) (base_score + keyword_boost + intent_boost)
  { is_harassment := !found.isEmpty || !intent_found.isEmpty,
    confidence := round4 score,
    severity := classify_severity score,
    category := detect_category tl,
    method := "keyword_fallback" }

/-- Entry point `analyze_text(text)` (harassment.py lines 87-157). `keywordFallback` is
`self.keyword_fallback`; `scores` is the list `ai_scores` of per-classifier
toxicity scalars obtained in the model loop (empty when every classifier
failed), so the AI branch is taken exactly when `keywordFallback` is false and
`scores` is non-empty, as in the source. -/
def analyze_text (keywordFallback : Bool) (scores : List ℚ) (text : List Char) : TextResult :=
  if isBlank text then
    { is_harassment := false, confidence := 0, severity := "safe",
      category := "empty", method := "none" }
  else if !keywordFallback && !scores.isEmpty then ai_analysis scores text
  else keyword_fallback_analysis text

/-- Extractor `_extract_toxic_score(label_scores)` (harassment.py lines 159-171). The
Python dict of lowercased label names to scores is modelled as an association
list with distinct keys; `k in label_scores` / `label_scores[k]` is
`List.lookup`. -/
def extract_toxic_score (m : List (String × ℚ)) : ℚ :=
  match List.lookup "toxic" m with
  | some v => v
  | none =>
    match List.lookup "label_1" m with
    | some v => v
    | none =>
      match List.lookup "toxicity" m with
      | some v => v
      | none =>
        match List.lookup "non_toxic" m with
        | some v => 1 - v
        | none =>
          match List.lookup "label_0" m with
          | some v => 1 - v
          | none => if m.isEmpty then 0 else (m.map Prod.snd).sum / m.length

/-! ## Harassment detector, deployed variant (`src/src/models/harassment.py`)

The repository carries a second, older copy of the harassment module, which
`src/services/detection.py` imports. Its keyword data and scoring rules
diverge from the ShieldX copy, so it is embedded separately below. -/

/-- Right single quotation mark (U+2019), used inside two of the deployed
intent-trigger phrases (the third uses the ASCII apostrophe). -/
def rsq : Char := Char.ofNat 8217

/-- Keyword list `self.fallback_words` of the deployed variant
(src harassment.py lines 52-56): 18 words, without "die", "death", "murder",
"stalk", "creep", "loser", "worthless". -/
def src_fallback_words : List (List Char) :=
  ["kill", "hate", "follow", "watch", "control", "obey", "attack",
   "destroy", "bitch", "threat", "blackmail", "force", "hurt",
   "find you", "track you", "waiting outside", "ruin", "break you"].map String.data

/-- Phrase list `self.intent_triggers` of the deployed variant
(src harassment.py lines 58-64). -/
def src_intent_triggers : List (List Char) :=
  ["follow you".data, "find you".data, "track you".data, "watch you".data,
   "hurt you".data, "kill you".data, "destroy you".data, "make you pay".data,
   "no one will believe you".data, "i".data ++ [rsq] ++ "m outside".data,
   "waiting for you".data,
   "you can".data ++ [apos] ++ "t escape".data, "i know where you live".data,
   "i".data ++ [rsq] ++ "ll get you".data,
   "you will regret".data, "you deserve this".data, "you will die".data]

/-- Table `self.category_map` of the deployed variant
(src harassment.py lines 66-72), in insertion order. -/
def src_category_map : List (String × List (List Char)) :=
  [("threat", ["kill", "hurt", "destroy", "attack", "revenge", "make you pay",
               "you will regret", "die"].map String.data),
   ("stalking", ["follow", "find you", "track", "watch", "waiting outside",
                 "outside your house"].map String.data),
   ("manipulation", ["control".data, "obey".data, "no one will believe you".data,
                     "you owe me".data, "you can".data ++ [apos] ++ "t escape".data]),
   ("harassment", ["bitch", "hate", "worthless", "idiot", "stupid", "pathetic",
                   "trash"].map String.data),
   ("coercion", ["blackmail", "force", "you must", "you have to",
                 "submit"].map String.data)]

/-- Function `_detect_category(text_lower)` of the deployed variant
(src harassment.py lines 183-187): return the first category with any
matching keyword, else "general". -/
def src_detect_category (tl : List Char) : String :=
  ((src_category_map.find? (fun p => p.2.any (fun k => hasSub k tl))).map Prod.fst).getD
    "general"

/-- Toxic-score extraction of the deployed variant (src harassment.py lines
96-100): a Python truthiness-`or` chain over `label_scores.get(key, 0.0)`.
An operand equal to 0.0 is falsy and falls through to the next. -/
def src_extract_toxic_score (m : List (String × ℚ)) : ℚ :=
  let a := (List.lookup "toxic" m).getD 0
  let b := (List.lookup "LABEL_1" m).getD 0
  let c := 1 - (List.lookup "non_toxic" m).getD 0
  if a ≠ 0 then a else if b ≠ 0 then b else c

/-- Intent amplification of the deployed variant (src harassment.py lines
110-112): a flat `avg_toxic = min(1.0, avg_toxic + 0.35)` whenever any
trigger matches. -/
def src_intent_amplified (avg : ℚ) (tl : List Char) : ℚ :=
  if src_intent_triggers.any (fun t => hasSub t tl) then min 1 (avg + 7/20) else avg

/-- Value of `avg_toxic` after intent amplification and variance smoothing in
the deployed variant (src harassment.py lines 107-118); the smoothing step is
identical to the ShieldX copy. -/
def src_final_toxic (scores : List ℚ) (tl : List Char) : ℚ :=
  let a := src_intent_amplified (mean scores) tl
  if 1 < scores.length ∧ 2/5 < listMax scores - listMin scores then a * (9/10) else a

/-- The contextual-AI branch of the deployed `analyze_text` once `ai_scores`
is non-empty (src harassment.py lines 107-138); its final decision tests
`self.fallback_words`, not a critical-keyword list, and its severity
thresholds coincide with `classify_severity`. -/
def src_ai_analysis (scores : List ℚ) (text : List Char) : TextResult :=
  let tl := lower text
  let a := src_final_toxic scores tl
  { is_harassment := decide ((7/20 : ℚ) ≤ a)
                       || src_intent_triggers.any (fun t => hasSub t tl)
                       || src_fallback_words.any (fun k => hasSub k tl),
    confidence := round4 a,
    severity := classify_severity a,
    category := src_detect_category tl,
    method := "contextual_ai" }

/-- Fallback `_keyword_fallback_analysis(text)` of the deployed variant
(src harassment.py lines 146-160):
`score = min(0.95, 0.3 + 0.1 * len(found)) if found else 0.0`, with no
intent boost and no separate keyword-boost cap. -/
def src_keyword_fallback_analysis (text : List Char) : TextResult :=
  let tl := lower text
  let found := src_fallback_words.filter (fun w => hasSub w tl)
  let score : ℚ :=
    if found ≠ [] then min (19/20) (3/10 + (1/10) * found.length) else 0
  { is_harassment := !found.isEmpty,
    confidence := round4 score,
    severity := classify_severity score,
    category := src_detect_category tl,
    method := "keyword_fallback" }

/-- Result of the deployed `analyze_text`: either the bare error dict
`{"error": msg}` (src harassment.py line 80) or an analysis record. -/
inductive SrcTextOutcome where
  | err (msg : String)
  | res (r : TextResult)
deriving DecidableEq, Repr

/-- Entry point `analyze_text(text)` of the deployed variant (src
harassment.py lines 77-141): blank input returns only
`{"error": "Empty text input"}`; otherwise the AI branch runs exactly when
`keywordFallback` is false and some classifier score was obtained. -/
def src_analyze_text (keywordFallback : Bool) (scores : List ℚ)
    (text : List Char) : SrcTextOutcome :=
  if isBlank text then .err "Empty text input"
  else if !keywordFallback && !scores.isEmpty then .res (src_ai_analysis scores text)
  else .res (src_keyword_fallback_analysis text)

/-! ## Deepfake detector -/

/-- One per-model (or per-frame) result: the normalized prediction string and
its confidence. -/
structure ModelResult where
  prediction : String
  confidence : ℚ
deriving DecidableEq, Repr

/-- Fake-indicating label keywords of `_normalize_label`
(ShieldX deepfake.py line 115). -/
def shieldx_fake_keywords : List (List Char) :=
  ["fake", "ai", "artificial", "generated", "synthetic", "forged",
   "manipulated", "1"].map String.data

/-- Real-indicating label keywords of `_normalize_label`
(ShieldX deepfake.py line 116). -/
def shieldx_real_keywords : List (List Char) :=
  ["real", "authentic", "genuine", "original", "human", "0"].map String.data

/-- Normalizer `_normalize_label(raw_label, model_name)` (ShieldX deepfake.py lines
112-124): the returned pair is (normalized category, confidence adjustment). -/
def normalize_label (raw : List Char) : String × ℚ :=
  let label_lower := lower raw
  if shieldx_fake_keywords.any (fun k => hasSub k label_lower) then ("Fake", 1)
  else if shieldx_real_keywords.any (fun k => hasSub k label_lower) then ("Real", 1)
  else ("Uncertain", 1/2)

/-- Fallback fake keywords of `_interpret_prediction`
(src/src deepfake.py line 155). -/
def src_fake_keywords : List (List Char) :=
  ["artificial", "ai", "synthetic", "fake", "generated"].map String.data

/-- Fallback real keywords of `_interpret_prediction`
(src/src deepfake.py line 157). -/
def src_real_keywords : List (List Char) :=
  ["real", "authentic", "natural", "genuine", "human"].map String.data

/-- The label-interpretation part of `_interpret_prediction` (src/src
deepfake.py lines 139-161): map the raw top label through the config label
table (raw, then lowercased, then the stringified top index), falling back to
keyword matching, else "Uncertain". -/
def interpret_label (labelMap : List (String × String)) (raw : List Char) (topIdx : ℕ) : String :=
  match List.lookup (String.mk raw) labelMap with
  | some p => p
  | none =>
    match List.lookup (String.mk (lower raw)) labelMap with
    | some p => p
    | none =>
      match List.lookup (toString topIdx) labelMap with
      | some p => p
      | none =>
        let raw_label_lower := lower raw
        if src_fake_keywords.any (fun k => hasSub k raw_label_lower) then "Fake"
        else if src_real_keywords.any (fun k => hasSub k raw_label_lower) then "Real"
        else "Uncertain"

/-- Count `fake_votes` (ShieldX deepfake.py line 182). -/
def fake_votes (rs : List ModelResult) : ℕ :=
  rs.countP (fun r => r.prediction == "Fake")

/-- The result-aggregation step of ShieldX `analyze_image` (deepfake.py lines
181-197), mapping the non-empty list of per-model results to the final
(prediction, confidence) pair; an empty list is returned earlier in the source
as the error response, modelled here by the same ("Error", 0) fields. -/
def ensemble_aggregate (rs : List ModelResult) : String × ℚ :=
  if 1 < rs.length then
    let f := fake_votes rs
    let avg_confidence := mean (rs.map ModelResult.confidence)
    let final_prediction :=
      if (rs.length : ℚ) / 2 < (f : ℚ) then "Fake"
      else if f = 0 then "Real"
      else if 3/5 < avg_confidence then "Fake" else "Uncertain"
    (final_prediction, avg_confidence)
  else
    match rs with
    | [] => ("Error", 0)
    | r :: _ => (r.prediction, r.confidence)

/-- Bucketing `confidence_level` of the ShieldX (ensemble) `analyze_image`
(ShieldX deepfake.py line 199). -/
def shieldx_confidence_level (c : ℚ) : String :=
  if 4/5 ≤ c then "High" else if 3/5 ≤ c then "Medium" else "Low"

/-- Bucketing `confidence_level` of the single-model `analyze_image`
(src/src deepfake.py lines 232-238). -/
def src_confidence_level (c : ℚ) : String :=
  if 17/20 ≤ c then "High" else if 7/10 ≤ c then "Medium" else "Low"

/-- Summary record returned by `analyze_video_frames`, restricted to the
fields the specification speaks about. -/
structure VideoSummary where
  prediction : String
  confidence : ℚ
  fake_frame_ratio : ℚ
  frames_analyzed : ℕ
  fake_frames : ℕ
  real_frames : ℕ
deriving DecidableEq, Repr

/-- Python stride slicing `frames[::sample_rate]` for `sample_rate ≥ 1`. -/
def stride (k : ℕ) : List α → List α
  | [] => []
  | x :: xs => x :: stride k (xs.drop (k - 1))
termination_by l => l.length
decreasing_by simp [List.length_drop]; omega

/-- The aggregation of `analyze_video_frames` over the per-frame results of
`analyze_image` (ShieldX deepfake.py lines 220-254 and identically src/src
deepfake.py lines 271-311). -/
def aggregate_video (rs : List ModelResult) : VideoSummary :=
  let num_frames := rs.length
  let fake_count := rs.countP (fun r => r.prediction == "Fake")
  let real_count := rs.countP (fun r => r.prediction == "Real")
  let avg_confidence : ℚ :=
    if 0 < num_frames then (rs.map ModelResult.confidence).sum / num_frames else 0
  let fake_ratio : ℚ := if 0 < num_frames then (fake_count : ℚ) / num_frames else 0
  let overall :=
    if 3/10 < fake_ratio then "Fake"
    else if fake_ratio < 1/10 ∧ 0 < real_count then "Real"
    else "Uncertain"
  { prediction := overall,
    confidence := round4 avg_confidence,
    fake_frame_ratio := round4 fake_ratio,
    frames_analyzed := num_frames,
    fake_frames := fake_count,
    real_frames := real_count }

/-- Function `analyze_video_frames(frames, sample_rate)`: analyze every
`sample_rate`-th frame and aggregate. `frames` here carries the per-frame
`analyze_image` outcome for each raw frame. -/
def analyze_video_frames (frames : List ModelResult) (sample_rate : ℕ) : VideoSummary :=
  aggregate_video (stride sample_rate frames)

/-! ## Shared helper lemmas -/

theorem matched_intents_ne_nil_iff (tl : List Char) :
    matched_intents tl ≠ [] ↔ ∃ t ∈ intent_triggers, t <:+: tl := by
  unfold matched_intents
  rw [Ne, List.filter_eq_nil_iff]
  push_neg
  constructor
  · rintro ⟨t, ht, hp⟩
    exact ⟨t, ht, (hasSub_eq_true_iff t tl).mp hp⟩
  · rintro ⟨t, ht, hp⟩
    exact ⟨t, ht, (hasSub_eq_true_iff t tl).mpr hp⟩

theorem has_critical_keywords_iff (tl : List Char) :
    has_critical_keywords tl = true ↔ ∃ w ∈ critical_words, w <:+: tl := by
  unfold has_critical_keywords
  rw [List.any_eq_true]
  constructor
  · rintro ⟨w, hw, hp⟩
    exact ⟨w, hw, (hasSub_eq_true_iff w tl).mp hp⟩
  · rintro ⟨w, hw, hp⟩
    exact ⟨w, hw, (hasSub_eq_true_iff w tl).mpr hp⟩

theorem any_hasSub_eq_false {l : List (List Char)} {tl : List Char}
    (h : ∀ k ∈ l, ¬ k <:+: tl) : l.any (fun k => hasSub k tl) = false := by
  rw [Bool.eq_false_iff, Ne, List.any_eq_true]
  rintro ⟨k, hk, hp⟩
  exact h k hk ((hasSub_eq_true_iff k tl).mp hp)

theorem any_hasSub_iff (l : List (List Char)) (tl : List Char) :
    l.any (fun k => hasSub k tl) = true ↔ ∃ k ∈ l, k <:+: tl := by
  rw [List.any_eq_true]
  constructor
  · rintro ⟨k, hk, hp⟩
    exact ⟨k, hk, (hasSub_eq_true_iff k tl).mp hp⟩
  · rintro ⟨k, hk, hp⟩
    exact ⟨k, hk, (hasSub_eq_true_iff k tl).mpr hp⟩

theorem mean_singleton (q : ℚ) : mean [q] = q := by
  simp [mean]

/-! ## Claim theorems -/

/-- C8 counterexample: on whitespace-only input the deployed `analyze_text`
returns only the bare dict `{"error": "Empty text input"}`, not a terminal
record carrying `is_harassment`/`confidence`/`severity`/`category`/`method`
fields; the ShieldX copy does return that record. -/
theorem blank_divergence_cex :
    src_analyze_text false [(1:ℚ)/2] "  ".data = SrcTextOutcome.err "Empty text input"
    ∧ analyze_text false [(1:ℚ)/2] "  ".data
        = { is_harassment := false, confidence := 0, severity := "safe",
            category := "empty", method := "none" } := by
  constructor
  · simp [src_analyze_text, show isBlank "  ".data = true from by decide]
  · simp [analyze_text, show isBlank "  ".data = true from by decide]

/-- C8 (amended): for every text that is empty or whitespace-only, the
ShieldX `analyze_text` returns, without invoking any classifier, the terminal
result with `is_harassment = false`, `confidence = 0.0`,
`severity = "safe"`, `category = "empty"` and `method = "none"`; the deployed
`analyze_text` instead returns only `{"error": "Empty text input"}`, likewise
before invoking any classifier. Neither result depends on classifier
scores. -/
theorem analyze_text_blank_terminal (kf : Bool) (scores scoresAlt : List ℚ)
    (text : List Char) (hb : isBlank text = true) :
    analyze_text kf scores text
      = { is_harassment := false, confidence := 0, severity := "safe",
          category := "empty", method := "none" }
    ∧ analyze_text kf scores text = analyze_text kf scoresAlt text
    ∧ src_analyze_text kf scores text = SrcTextOutcome.err "Empty text input"
    ∧ src_analyze_text kf scores text = src_analyze_text kf scoresAlt text := by
  refine ⟨?_, ?_, ?_, ?_⟩
  · simp [analyze_text, hb]
  · simp [analyze_text, hb]
  · simp [src_analyze_text, hb]
  · simp [src_analyze_text, hb]

theorem analyze_text_blank_terminal_witness :
    analyze_text false [1/2] "  ".data
      = { is_harassment := false, confidence := 0, severity := "safe",
          category := "empty", method := "none" }
    ∧ analyze_text false [1/2] "  ".data = analyze_text false [2/3] "  ".data
    ∧ src_analyze_text false [1/2] "  ".data = SrcTextOutcome.err "Empty text input"
    ∧ src_analyze_text false [1/2] "  ".data = src_analyze_text false [2/3] "  ".data :=
  analyze_text_blank_terminal false [1/2] [2/3] "  ".data (by decide)

/-- C2 counterexample: on a text matching five configured keywords the
ShieldX fallback returns the claimed
`min(0.95, 0.3 + min(0.4, 0.5) + 0) = 0.7`, but the deployed fallback
computes `min(0.95, 0.3 + 0.1·5) = 0.8` — it has no keyword-boost cap and no
intent boost — so the claimed formula is false of the deployed copy. -/
theorem keyword_fallback_divergence_cex :
    (keyword_fallback_analysis "kill hate follow watch control".data).confidence = (7:ℚ)/10
    ∧ (src_keyword_fallback_analysis "kill hate follow watch control".data).confidence
        = (4:ℚ)/5
    ∧ (src_fallback_words.filter
        (fun w => hasSub w (lower "kill hate follow watch control".data))).length = 5 := by
  have hfX : fallback_words.filter
      (fun w => hasSub w (lower "kill hate follow watch control".data))
      = ["kill".data, "hate".data, "follow".data, "watch".data, "control".data] := by decide
  have hfS : src_fallback_words.filter
      (fun w => hasSub w (lower "kill hate follow watch control".data))
      = ["kill".data, "hate".data, "follow".data, "watch".data, "control".data] := by decide
  have hiX : intent_triggers.filter
      (fun t => hasSub t (lower "kill hate follow watch control".data)) = [] := by decide
  refine ⟨?_, ?_, by decide⟩
  · show round4 _ = (7:ℚ)/10
    simp only [keyword_fallback_analysis, hfX, hiX]
    norm_num [round4, round_eq, List.cons_ne_nil]
  · show round4 _ = (4:ℚ)/5
    simp only [src_keyword_fallback_analysis, hfS]
    norm_num [round4, round_eq, List.cons_ne_nil]

/-- C2 (amended): the ShieldX fallback confidence equals
`min(0.95, base_score + keyword_boost + intent_boost)` with
`base_score = 0.3` iff some configured keyword matches,
`keyword_boost = min(0.4, 0.1·|found|)` and
`intent_boost = min(0.3, 0.15·|intent_found|)`; the deployed fallback instead
returns `min(0.95, 0.3 + 0.1·|found|)` when a keyword matches and 0.0
otherwise, with no intent boost and no keyword-boost cap. Both fallback
confidences never exceed 0.95. -/
theorem keyword_fallback_confidence_spec (text : List Char) :
    (keyword_fallback_analysis text).confidence
        = min (19/20)
            ((if fallback_words.filter (fun w => hasSub w (lower text)) ≠ []
                then (3:ℚ)/10 else 0)
             + min ((2:ℚ)/5)
                 ((1/10) * ((fallback_words.filter (fun w => hasSub w (lower text))).length : ℚ))
             + min ((3:ℚ)/10)
                 ((3/20) * ((intent_triggers.filter (fun t => hasSub t (lower text))).length : ℚ)))
    ∧ (keyword_fallback_analysis text).confidence ≤ 19/20
    ∧ (src_keyword_fallback_analysis text).confidence
        = (if src_fallback_words.filter (fun w => hasSub w (lower text)) ≠ []
             then min ((19:ℚ)/20)
               (3/10 + (1/10) * ((src_fallback_words.filter (fun w => hasSub w (lower text))).length : ℚ))
             else 0)
    ∧ (src_keyword_fallback_analysis text).confidence ≤ 19/20 := by
  have hg : OnGrid4
      (min ((19:ℚ)/20)
        ((if fallback_words.filter (fun w => hasSub w (lower text)) ≠ []
            then (3:ℚ)/10 else 0)
         + min ((2:ℚ)/5)
             ((1/10) * ((fallback_words.filter (fun w => hasSub w (lower text))).length : ℚ))
         + min ((3:ℚ)/10)
             ((3/20) * ((intent_triggers.filter (fun t => hasSub t (lower text))).length : ℚ)))) := by
    refine onGrid4_min ⟨9500, by norm_num⟩ (onGrid4_add (onGrid4_add ?_ ?_) ?_)
    · split_ifs
      · exact ⟨3000, by norm_num⟩
      · exact ⟨0, by norm_num⟩
    · exact onGrid4_min ⟨4000, by norm_num⟩ (onGrid4_tenth_mul _)
    · exact onGrid4_min ⟨3000, by norm_num⟩ (onGrid4_three_twentieth_mul _)
  have hconf : (keyword_fallback_analysis text).confidence
      = round4 (min ((19:ℚ)/20)
          ((if fallback_words.filter (fun w => hasSub w (lower text)) ≠ []
              then (3:ℚ)/10 else 0)
           + min ((2:ℚ)/5)
               ((1/10) * ((fallback_words.filter (fun w => hasSub w (lower text))).length : ℚ))
           + min ((3:ℚ)/10)
               ((3/20) * ((intent_triggers.filter (fun t => hasSub t (lower text))).length : ℚ)))) := rfl
  have hgS : OnGrid4
      (if src_fallback_words.filter (fun w => hasSub w (lower text)) ≠ []
         then min ((19:ℚ)/20)
           (3/10 + (1/10) * ((src_fallback_words.filter (fun w => hasSub w (lower text))).length : ℚ))
         else 0) := by
    split_ifs
    · exact onGrid4_min ⟨9500, by norm_num⟩ (onGrid4_add ⟨3000, by norm_num⟩ (onGrid4_tenth_mul _))
    · exact ⟨0, by norm_num⟩
  have hconfS : (src_keyword_fallback_analysis text).confidence
      = round4 (if src_fallback_words.filter (fun w => hasSub w (lower text)) ≠ []
          then min ((19:ℚ)/20)
            (3/10 + (1/10) * ((src_fallback_words.filter (fun w => hasSub w (lower text))).length : ℚ))
          else 0) := by
    simp only [src_keyword_fallback_analysis, apply_ite round4]
  refine ⟨?_, ?_, ?_, ?_⟩
  · rw [hconf, round4_eq_self hg]
  · rw [hconf, round4_eq_self hg]
    exact min_le_left _ _
  · rw [hconfS, round4_eq_self hgS]
  · rw [hconfS, round4_eq_self hgS]
    split_ifs
    · exact min_le_left _ _
    · norm_num

/-- C3 counterexample: for `k = 1` matched phrase (here "kill you") the
deployed variant applies a flat 0.35 boost — an average of 0.1 becomes 0.45 —
while the claimed `min(0.35, 0.15·1) = 0.15` boost would give 0.25; so the
claimed boost formula is false of the deployed copy. -/
theorem intent_boost_divergence_cex :
    (src_intent_triggers.filter
      (fun t => hasSub t (lower "i will kill you".data))).length = 1
    ∧ src_intent_amplified ((1:ℚ)/10) (lower "i will kill you".data) = (9:ℚ)/20
    ∧ min (1:ℚ) (1/10 + intent_boost_of 1) = (1:ℚ)/4 := by
  have hany : src_intent_triggers.any
      (fun t => hasSub t (lower "i will kill you".data)) = true := by decide
  refine ⟨by decide, ?_, ?_⟩
  · unfold src_intent_amplified
    rw [if_pos hany]
    norm_num
  · unfold intent_boost_of
    norm_num

/-- C3 (amended): in the ShieldX AI path with `k ≥ 1` matched intent phrases,
the boost is `min(0.35, 0.15·k)` and the boosted score is
`min(1.0, avg + boost)`; the boost is monotone in `k` and capped at 0.35, and
the post-boost score is capped at 1.0. The deployed variant instead applies a
flat 0.35 boost whenever any phrase matches: its amplified score is
`min(1.0, avg + 0.35)`, likewise capped at 1.0. -/
theorem intent_boost_spec (scores : List ℚ) (text : List Char)
    (hk : 1 ≤ (matched_intents (lower text)).length) :
    boosted_toxic scores (lower text)
        = min 1 (mean scores + intent_boost_of (matched_intents (lower text)).length)
    ∧ (∀ k₁ k₂ : ℕ, k₁ ≤ k₂ → intent_boost_of k₁ ≤ intent_boost_of k₂)
    ∧ (∀ k : ℕ, intent_boost_of k ≤ 7/20)
    ∧ boosted_toxic scores (lower text) ≤ 1
    ∧ (src_intent_triggers.any (fun t => hasSub t (lower text)) = true →
        src_intent_amplified (mean scores) (lower text) = min 1 (mean scores + 7/20)
        ∧ src_intent_amplified (mean scores) (lower text) ≤ 1) := by
  have hne : matched_intents (lower text) ≠ [] := by
    intro h
    rw [h] at hk
    simp at hk
  refine ⟨?_, ?_, ?_, ?_, ?_⟩
  · unfold boosted_toxic
    rw [if_pos hne]
  · intro k₁ k₂ h
    unfold intent_boost_of
    refine min_le_min le_rfl ?_
    have hc : (k₁ : ℚ) ≤ (k₂ : ℚ) := by exact_mod_cast h
    nlinarith
  · intro k
    exact min_le_left _ _
  · unfold boosted_toxic
    rw [if_pos hne]
    exact min_le_left _ _
  · intro hany
    unfold src_intent_amplified
    rw [if_pos hany]
    exact ⟨rfl, min_le_left _ _⟩

theorem intent_boost_spec_witness :
    boosted_toxic [(1:ℚ)/2] (lower "i will kill you".data) ≤ 1
    ∧ src_intent_amplified (mean [(1:ℚ)/2]) (lower "i will kill you".data) ≤ 1 :=
  ⟨(intent_boost_spec [(1:ℚ)/2] "i will kill you".data (by decide)).2.2.2.1,
   ((intent_boost_spec [(1:ℚ)/2] "i will kill you".data (by decide)).2.2.2.2
      (by decide)).2⟩

/-- C1 counterexample: on "death to all" with a single classifier score 0.1
the critical keyword "death" occurs, so the claimed rule (and the ShieldX
copy) says harassment; but the deployed copy tests its 18-word
`fallback_words` list, which lacks "death", and returns
`is_harassment = false` — so the claimed iff is false of the deployed copy. -/
theorem ai_is_harassment_divergence_cex :
    src_analyze_text false [(1:ℚ)/10] "death to all".data
      = SrcTextOutcome.res
          { is_harassment := false, confidence := (1:ℚ)/10, severity := "safe",
            category := "general", method := "contextual_ai" }
    ∧ hasSub "death".data (lower "death to all".data) = true
    ∧ (analyze_text false [(1:ℚ)/10] "death to all".data).is_harassment = true := by
  have hb : isBlank "death to all".data = false := by decide
  have ht : src_intent_triggers.any
      (fun t => hasSub t (lower "death to all".data)) = false := by decide
  have hf : src_fallback_words.any
      (fun k => hasSub k (lower "death to all".data)) = false := by decide
  have hcat : src_detect_category (lower "death to all".data) = "general" := by decide
  have hfin : src_final_toxic [(1:ℚ)/10] (lower "death to all".data) = 1/10 := by
    simp only [src_final_toxic, src_intent_amplified, ht, Bool.false_eq_true, if_false,
      List.length_cons, List.length_nil, mean_singleton]
    norm_num
  refine ⟨?_, by decide, ?_⟩
  · simp only [src_analyze_text, hb, Bool.false_eq_true, if_false, Bool.not_false,
      List.isEmpty_cons, Bool.not_false, Bool.and_self, if_true, src_ai_analysis,
      hfin, ht, hf, hcat, Bool.or_false, SrcTextOutcome.res.injEq, TextResult.mk.injEq]
    refine ⟨?_, ?_, ?_, trivial, trivial⟩
    · rw [decide_eq_false (by norm_num : ¬ ((7:ℚ)/20 ≤ 1/10))]
    · rw [round4_eq_self ⟨1000, by norm_num⟩]
    · norm_num [classify_severity]
  · have hcrit : has_critical_keywords (lower "death to all".data) = true := by decide
    simp only [analyze_text, hb, Bool.false_eq_true, if_false, Bool.not_false,
      List.isEmpty_cons, Bool.and_self, if_true, ai_analysis, hcrit, Bool.or_true]

/-- C1 (amended): in the AI text path of the ShieldX copy, `is_harassment`
holds iff the final averaged toxic score is at least 0.35, or some intent
phrase occurs in the lowercased text, or some critical keyword from the fixed
seven-word list occurs; in the deployed copy the third disjunct instead tests
its 18-word `fallback_words` list (which lacks "die", "death", "murder"). -/
theorem ai_is_harassment_iff (scores : List ℚ) (text : List Char)
    (hscores : scores ≠ []) (hb : isBlank text = false) :
    ((analyze_text false scores text).is_harassment = true ↔
       ((7:ℚ)/20 ≤ final_toxic scores (lower text)
        ∨ (∃ t ∈ intent_triggers, t <:+: lower text)
        ∨ (∃ w ∈ critical_words, w <:+: lower text)))
    ∧ critical_words
        = ["kill", "die", "death", "murder", "hurt", "destroy",
           "attack"].map String.data
    ∧ src_analyze_text false scores text = SrcTextOutcome.res (src_ai_analysis scores text)
    ∧ ((src_ai_analysis scores text).is_harassment = true ↔
       ((7:ℚ)/20 ≤ src_final_toxic scores (lower text)
        ∨ (∃ t ∈ src_intent_triggers, t <:+: lower text)
        ∨ (∃ w ∈ src_fallback_words, w <:+: lower text))) := by
  have hse : scores.isEmpty = false := by
    cases scores with
    | nil => exact absurd rfl hscores
    | cons a as => rfl
  refine ⟨?_, rfl, ?_, ?_⟩
  · have hpath : analyze_text false scores text = ai_analysis scores text := by
      unfold analyze_text
      rw [hb, hse]
      rfl
    rw [hpath]
    unfold ai_analysis
    simp only [Bool.or_eq_true, decide_eq_true_eq, Bool.not_eq_true',
      List.isEmpty_eq_false, has_critical_keywords_iff, matched_intents_ne_nil_iff]
    exact or_assoc
  · unfold src_analyze_text
    rw [hb, hse]
    rfl
  · unfold src_ai_analysis
    simp only [Bool.or_eq_true, decide_eq_true_eq, any_hasSub_iff]
    exact or_assoc

theorem ai_is_harassment_iff_witness :
    (analyze_text false [(1:ℚ)/2] "hello".data).is_harassment = true :=
  (ai_is_harassment_iff [(1:ℚ)/2] "hello".data (by simp) (by decide)).1.mpr
    (Or.inl (by
      have hm : matched_intents (lower "hello".data) = [] := by decide
      unfold final_toxic boosted_toxic
      rw [hm]
      norm_num [mean]))

/-- C4 counterexample: on the mapping with toxic = 0.0 and non_toxic = 0.2,
the deployed truthiness-`or` chain lets the present "toxic" key fall through
(0.0 is falsy) and yields 1 − 0.2 = 0.8, while the claim (and the ShieldX
copy) says the first present key decides, giving 0.0. -/
theorem extract_toxic_divergence_cex :
    src_extract_toxic_score [("toxic", (0:ℚ)), ("non_toxic", 1/5)] = (4:ℚ)/5
    ∧ extract_toxic_score [("toxic", (0:ℚ)), ("non_toxic", 1/5)] = 0
    ∧ List.lookup "toxic" [("toxic", (0:ℚ)), ("non_toxic", 1/5)] = some 0 := by
  refine ⟨?_, rfl, rfl⟩
  show (if (0:ℚ) ≠ 0 then (0:ℚ) else if (0:ℚ) ≠ 0 then (0:ℚ) else 1 - 1/5) = (4:ℚ)/5
  norm_num

/-- C4 (amended): the ShieldX `_extract_toxic_score` tries the keys "toxic",
"label_1", "toxicity", 1−"non_toxic", 1−"label_0" in that exact order, the
first key present deciding the value (whatever the score, including 0.0), and
falls back to the arithmetic mean of all provided scores. The deployed
extraction is instead a Python truthiness-`or` chain: a present but zero
operand falls through, the "LABEL_1" key is dead (labels are lowercased), and
"toxicity" / "label_0" / the mean are never consulted; its last resort is
1 − non_toxic with default 0.0. -/
theorem extract_toxic_score_precedence (m : List (String × ℚ)) :
    (∀ v : ℚ, List.lookup "toxic" m = some v → extract_toxic_score m = v)
  ∧ (List.lookup "toxic" m = none →
      ∀ v : ℚ, List.lookup "label_1" m = some v → extract_toxic_score m = v)
  ∧ (List.lookup "toxic" m = none → List.lookup "label_1" m = none →
      ∀ v : ℚ, List.lookup "toxicity" m = some v → extract_toxic_score m = v)
  ∧ (List.lookup "toxic" m = none → List.lookup "label_1" m = none →
      List.lookup "toxicity" m = none →
      ∀ v : ℚ, List.lookup "non_toxic" m = some v → extract_toxic_score m = 1 - v)
  ∧ (List.lookup "toxic" m = none → List.lookup "label_1" m = none →
      List.lookup "toxicity" m = none → List.lookup "non_toxic" m = none →
      ∀ v : ℚ, List.lookup "label_0" m = some v → extract_toxic_score m = 1 - v)
  ∧ (List.lookup "toxic" m = none → List.lookup "label_1" m = none →
      List.lookup "toxicity" m = none → List.lookup "non_toxic" m = none →
      List.lookup "label_0" m = none → m ≠ [] →
      extract_toxic_score m = (m.map Prod.snd).sum / (m.length : ℚ))
  ∧ (∀ v : ℚ, List.lookup "toxic" m = some v → v ≠ 0 → src_extract_toxic_score m = v)
  ∧ ((List.lookup "toxic" m).getD 0 = 0 →
      ∀ v : ℚ, List.lookup "LABEL_1" m = some v → v ≠ 0 → src_extract_toxic_score m = v)
  ∧ ((List.lookup "toxic" m).getD 0 = 0 → (List.lookup "LABEL_1" m).getD 0 = 0 →
      src_extract_toxic_score m = 1 - (List.lookup "non_toxic" m).getD 0) := by
  refine ⟨?_, ?_, ?_, ?_, ?_, ?_, ?_, ?_, ?_⟩
  · intro v h1
    unfold extract_toxic_score
    rw [h1]
  · intro h1 v h2
    unfold extract_toxic_score
    rw [h1, h2]
  · intro h1 h2 v h3
    unfold extract_toxic_score
    rw [h1, h2, h3]
  · intro h1 h2 h3 v h4
    unfold extract_toxic_score
    rw [h1, h2, h3, h4]
  · intro h1 h2 h3 h4 v h5
    unfold extract_toxic_score
    rw [h1, h2, h3, h4, h5]
  · intro h1 h2 h3 h4 h5 hne
    have hie : m.isEmpty = false := by
      cases m with
      | nil => exact absurd rfl hne
      | cons a as => rfl
    unfold extract_toxic_score
    rw [h1, h2, h3, h4, h5, hie]
    rfl
  · intro v h1 hv
    unfold src_extract_toxic_score
    rw [h1]
    simp only [Option.getD_some]
    rw [if_pos hv]
  · intro h1 v h2 hv
    unfold src_extract_toxic_score
    rw [h1, h2]
    simp only [Option.getD_some, ne_eq, not_true_eq_false, if_false]
    rw [if_pos hv]
  · intro h1 h2
    unfold src_extract_toxic_score
    rw [h1, h2]
    simp only [ne_eq, not_true_eq_false, if_false]

theorem extract_toxic_score_precedence_witness :
    extract_toxic_score [("toxic", (0:ℚ))] = 0
    ∧ src_extract_toxic_score [("toxic", (0:ℚ))]
        = 1 - (List.lookup "non_toxic" [("toxic", (0:ℚ))]).getD 0 :=
  ⟨(extract_toxic_score_precedence [("toxic", (0:ℚ))]).1 0 rfl,
   (extract_toxic_score_precedence [("toxic", (0:ℚ))]).2.2.2.2.2.2.2.2 rfl rfl⟩

/-- C5: with at least two successful per-model results, the ensemble
prediction is "Fake" when the Fake votes strictly exceed half, "Real" when
there are zero Fake votes, and otherwise "Fake" iff the mean confidence
exceeds 0.6 (else "Uncertain"); the final confidence is the mean confidence. -/
theorem ensemble_majority_vote_spec (rs : List ModelResult) (h2 : 2 ≤ rs.length) :
    (ensemble_aggregate rs).1
        = (if ((rs.length : ℚ)) / 2 < ((fake_votes rs : ℕ) : ℚ) then "Fake"
           else if fake_votes rs = 0 then "Real"
           else if (3:ℚ)/5 < mean (rs.map ModelResult.confidence) then "Fake"
           else "Uncertain")
    ∧ (ensemble_aggregate rs).2 = mean (rs.map ModelResult.confidence) := by
  have h1 : 1 < rs.length := h2
  unfold ensemble_aggregate
  rw [if_pos h1]
  exact ⟨rfl, rfl⟩

theorem ensemble_majority_vote_spec_witness :
    (ensemble_aggregate [⟨"Fake", 1⟩, ⟨"Real", (1:ℚ)/2⟩]).2
      = mean ([⟨"Fake", 1⟩, ⟨"Real", (1:ℚ)/2⟩].map ModelResult.confidence) :=
  (ensemble_majority_vote_spec [⟨"Fake", 1⟩, ⟨"Real", (1:ℚ)/2⟩] (by simp)).2

/-- C9 counterexample: in the ensemble build, a final confidence of exactly
0.8 is reported as "High" although 0.8 < 0.85, so "High iff c ≥ 0.85" fails
for the ensemble variant. -/
theorem confidence_level_cex :
    shieldx_confidence_level ((4:ℚ)/5) = "High" ∧ (4:ℚ)/5 < 17/20 := by
  constructor
  · unfold shieldx_confidence_level
    rw [if_pos (by norm_num)]
  · norm_num

/-- C9 (amended): the single-model variant reports "High" iff c ≥ 0.85,
"Medium" iff 0.7 ≤ c < 0.85 and "Low" iff c < 0.7; the ensemble variant
reports "High" iff c ≥ 0.8, "Medium" iff 0.6 ≤ c < 0.8 and "Low" iff
c < 0.6. Each aggregator uses its one threshold set consistently. -/
theorem confidence_level_buckets (c : ℚ) (_hc0 : 0 ≤ c) (_hc1 : c ≤ 1) :
    ((src_confidence_level c = "High" ↔ (17:ℚ)/20 ≤ c)
     ∧ (src_confidence_level c = "Medium" ↔ (7:ℚ)/10 ≤ c ∧ c < 17/20)
     ∧ (src_confidence_level c = "Low" ↔ c < (7:ℚ)/10))
    ∧ ((shieldx_confidence_level c = "High" ↔ (4:ℚ)/5 ≤ c)
     ∧ (shieldx_confidence_level c = "Medium" ↔ (3:ℚ)/5 ≤ c ∧ c < 4/5)
     ∧ (shieldx_confidence_level c = "Low" ↔ c < (3:ℚ)/5)) := by
  unfold src_confidence_level shieldx_confidence_level
  constructor
  · split_ifs with h1 h2 <;> refine ⟨?_, ?_, ?_⟩ <;> simp_all <;> linarith
  · split_ifs with h1 h2 <;> refine ⟨?_, ?_, ?_⟩ <;> simp_all <;> linarith

theorem confidence_level_buckets_witness :
    src_confidence_level ((9:ℚ)/10) = "High" :=
  (confidence_level_buckets ((9:ℚ)/10) (by norm_num) (by norm_num)).1.1.mpr (by norm_num)


/-- C7: a raw label that is absent from the label table (tried raw,
lowercased, and by top index) and whose lowercase form contains no
fake-indicating and no real-indicating keyword is normalized to category
"Uncertain" with confidence adjustment exactly 0.5 in the ensemble build, and
interpreted as "Uncertain" in the table-driven build; it is never treated as
a full-confidence match. -/
theorem unmapped_label_uncertain (raw : List Char)
    (labelMap : List (String × String)) (topIdx : ℕ)
    (hf : ∀ k ∈ shieldx_fake_keywords, ¬ k <:+: lower raw)
    (hr : ∀ k ∈ shieldx_real_keywords, ¬ k <:+: lower raw)
    (hm1 : List.lookup (String.mk raw) labelMap = none)
    (hm2 : List.lookup (String.mk (lower raw)) labelMap = none)
    (hm3 : List.lookup (toString topIdx) labelMap = none)
    (hf2 : ∀ k ∈ src_fake_keywords, ¬ k <:+: lower raw)
    (hr2 : ∀ k ∈ src_real_keywords, ¬ k <:+: lower raw) :
    normalize_label raw = ("Uncertain", (1:ℚ)/2)
    ∧ interpret_label labelMap raw topIdx = "Uncertain" := by
  constructor
  · simp [normalize_label, any_hasSub_eq_false hf, any_hasSub_eq_false hr]
  · simp [interpret_label, hm1, hm2, hm3, any_hasSub_eq_false hf2,
      any_hasSub_eq_false hr2]

theorem unmapped_label_uncertain_witness :
    normalize_label "xyz".data = ("Uncertain", (1:ℚ)/2)
    ∧ interpret_label [] "xyz".data 0 = "Uncertain" :=
  unmapped_label_uncertain "xyz".data [] 0 (by decide) (by decide) rfl rfl rfl
    (by decide) (by decide)

/-- C6 counterexample: with 1 "Fake" frame among 3 analyzed frames the
returned `fake_frame_ratio` field is `round(1/3, 4) = 0.3333`, which is
strictly below the exact `fake_frame_count / frames_analyzed = 1/3`. -/
theorem video_ratio_rounding_cex :
    (aggregate_video [⟨"Fake", 1⟩, ⟨"Real", 0⟩, ⟨"Real", 0⟩]).fake_frame_ratio < (1:ℚ)/3
    ∧ (aggregate_video [⟨"Fake", 1⟩, ⟨"Real", 0⟩, ⟨"Real", 0⟩]).fake_frames = 1
    ∧ (aggregate_video [⟨"Fake", 1⟩, ⟨"Real", 0⟩, ⟨"Real", 0⟩]).frames_analyzed = 3 := by
  have hc : List.countP (fun r => r.prediction == "Fake")
      [(⟨"Fake", 1⟩ : ModelResult), ⟨"Real", 0⟩, ⟨"Real", 0⟩] = 1 := by decide
  refine ⟨?_, by decide, rfl⟩
  have h : (aggregate_video [⟨"Fake", 1⟩, ⟨"Real", 0⟩, ⟨"Real", 0⟩]).fake_frame_ratio
      = round4 ((1:ℚ)/3) := by
    simp only [aggregate_video, hc, List.length_cons, List.length_nil]
    norm_num
  rw [h]
  unfold round4
  rw [round_eq]
  norm_num

/-- C6 (amended): for every non-empty frame-result list, the verdict is
computed from the exact ratio `fake_frame_count / frames_analyzed`
("Fake" iff ratio > 0.3, "Real" iff ratio < 0.1 with at least one Real frame,
else "Uncertain"), and the returned `fake_frame_ratio` and `confidence`
fields are that exact ratio and the arithmetic mean of the per-frame
confidences, each rounded to 4 decimal places. -/
theorem video_aggregate_spec (rs : List ModelResult) (hne : rs ≠ []) :
    (aggregate_video rs).fake_frame_ratio
        = round4 (((rs.countP (fun r => r.prediction == "Fake") : ℕ) : ℚ) / (rs.length : ℚ))
    ∧ (aggregate_video rs).prediction
        = (if (3:ℚ)/10 < ((rs.countP (fun r => r.prediction == "Fake") : ℕ) : ℚ) / (rs.length : ℚ)
             then "Fake"
           else if ((rs.countP (fun r => r.prediction == "Fake") : ℕ) : ℚ) / (rs.length : ℚ) < 1/10
                    ∧ 0 < rs.countP (fun r => r.prediction == "Real") then "Real"
           else "Uncertain")
    ∧ (aggregate_video rs).confidence = round4 (mean (rs.map ModelResult.confidence))
    ∧ (aggregate_video rs).frames_analyzed = rs.length := by
  have hlen : 0 < rs.length := List.length_pos.mpr hne
  simp only [aggregate_video, if_pos hlen]
  refine ⟨trivial, trivial, ?_, trivial⟩
  unfold mean
  rw [List.length_map]

theorem video_aggregate_spec_witness :
    (aggregate_video [(⟨"Fake", 1⟩ : ModelResult), ⟨"Real", 1⟩]).frames_analyzed
      = ([(⟨"Fake", 1⟩ : ModelResult), ⟨"Real", 1⟩] : List ModelResult).length :=
  (video_aggregate_spec [(⟨"Fake", 1⟩ : ModelResult), ⟨"Real", 1⟩] (by simp)).2.2.2

/-- C10: an empty frame sequence (so also an empty stride sample) yields,
with no division by zero and no exception, prediction "Uncertain",
confidence 0.0, fake_frame_ratio 0.0 and frames_analyzed 0. -/
theorem video_empty_frames_safe (sample_rate : ℕ) :
    analyze_video_frames [] sample_rate
      = { prediction := "Uncertain", confidence := 0, fake_frame_ratio := 0,
          frames_analyzed := 0, fake_frames := 0, real_frames := 0 } := by
  have hs : stride sample_rate ([] : List ModelResult) = [] := by
    unfold stride
    rfl
  simp only [analyze_video_frames, hs]
  norm_num [aggregate_video, round4]
